import Mathlib

/-!
Verification of the multi-tenant RAG API (app/utils/filters.py,
app/routers/query.py, app/schemas/query_schema.py, app/models/document.py)
as a shallow embedding in Lean 4.

External collaborators (the vector store client, the relational session, the
embedding/LLM provider, the webhook HTTP delivery) are modelled by explicit
outcome parameters; everything the repository itself computes is translated
function by function from the Python source.
-/

/-- Document lifecycle status, from app/models/enums.py. -/
inductive DocumentStatus where
  | processing
  | completed
  | failed
deriving DecidableEq, Repr

/-- Filter comparison operators used by the source
(llama_index FilterOperator values EQ, IN, GTE, LTE). -/
inductive FilterOperator where
  | EQ
  | IN
  | GTE
  | LTE
deriving DecidableEq, Repr

/-- A filter clause value: a single string (tenant id, date bound) or a list
of strings (membership sets). -/
inductive FilterValue where
  | str (s : String)
  | strList (l : List String)
deriving DecidableEq, Repr

/-- One metadata filter clause, mirroring llama_index MetadataFilter
(key, value, operator). -/
structure MetadataFilter where
  key : String
  value : FilterValue
  operator : FilterOperator
deriving DecidableEq, Repr

/-- ExactMatchFilter(key, value) is a MetadataFilter with the EQ operator. -/
def ExactMatchFilter (key : String) (value : FilterValue) : MetadataFilter :=
  ⟨key, value, FilterOperator.EQ⟩

/-- How the clauses of a MetadataFilters expression are combined. -/
inductive FilterCondition where
  | and
  | or
deriving DecidableEq, Repr

/-- A conjunctive/disjunctive filter expression, mirroring llama_index
MetadataFilters; the constructor call in the source leaves condition at its
default, AND. -/
structure MetadataFilters where
  filters : List MetadataFilter
  condition : FilterCondition
deriving DecidableEq, Repr

/-- The query request schema, from app/schemas/query_schema.py: a required
query string and six optional filter fields, all defaulting to None. -/
structure QueryRequest where
  query : String
  document_ids : Option (List String)
  categories : Option (List String)
  tags : Option (List String)
  file_types : Option (List String)
  date_from : Option String
  date_to : Option String
deriving DecidableEq, Repr

/-- Python truthiness of an Optional list attribute: None and the empty list
are falsy, a non-empty list is truthy. -/
def truthyList (o : Option (List String)) : Bool :=
  match o with
  | none => false
  | some l => !l.isEmpty

/-- Python truthiness of an Optional string attribute: None and the empty
string are falsy. -/
def truthyStr (o : Option String) : Bool :=
  match o with
  | none => false
  | some s => !s.isEmpty

/-- build_metadata_filters from app/utils/filters.py: start from the tenant
exact-match clause and append one clause per truthy optional field, in source
order; the MetadataFilters is built with the default AND condition. -/
def build_metadata_filters (tenant_id : String) (request : QueryRequest) :
    MetadataFilters :=
  let filters := [ExactMatchFilter "tenant_id" (FilterValue.str tenant_id)]
  let filters := if truthyList request.document_ids then
      filters ++ [⟨"document_id", FilterValue.strList (request.document_ids.getD []),
        FilterOperator.IN⟩]
    else filters
  let filters := if truthyList request.categories then
      filters ++ [⟨"category", FilterValue.strList (request.categories.getD []),
        FilterOperator.IN⟩]
    else filters
  let filters := if truthyList request.tags then
      filters ++ [⟨"tags", FilterValue.strList (request.tags.getD []),
        FilterOperator.IN⟩]
    else filters
  let filters := if truthyList request.file_types then
      filters ++ [⟨"file_type", FilterValue.strList (request.file_types.getD []),
        FilterOperator.IN⟩]
    else filters
  let filters := if truthyStr request.date_from then
      filters ++ [⟨"upload_date", FilterValue.str (request.date_from.getD ""),
        FilterOperator.GTE⟩]
    else filters
  let filters := if truthyStr request.date_to then
      filters ++ [⟨"upload_date", FilterValue.str (request.date_to.getD ""),
        FilterOperator.LTE⟩]
    else filters
  ⟨filters, FilterCondition.and⟩

/-- A value in the applied-filters summary map: a list of strings, a date
range, or a plain string. -/
inductive SummaryValue where
  | vlist (l : List String)
  | vrange (lo hi : Option String)
  | vstr (s : String)
deriving DecidableEq, Repr

/-- get_applied_filters_summary from app/utils/filters.py: a map (modelled as
an insertion-ordered association list, like a Python dict) holding one entry
per truthy optional field, date_from and date_to merged into one date_range
entry, and the single entry scope = all_documents when nothing was added. -/
def get_applied_filters_summary (request : QueryRequest) :
    List (String × SummaryValue) :=
  let summary : List (String × SummaryValue) := []
  let summary := if truthyList request.document_ids then
      summary ++ [("document_ids", SummaryValue.vlist (request.document_ids.getD []))]
    else summary
  let summary := if truthyList request.categories then
      summary ++ [("categories", SummaryValue.vlist (request.categories.getD []))]
    else summary
  let summary := if truthyList request.tags then
      summary ++ [("tags", SummaryValue.vlist (request.tags.getD []))]
    else summary
  let summary := if truthyList request.file_types then
      summary ++ [("file_types", SummaryValue.vlist (request.file_types.getD []))]
    else summary
  let summary := if truthyStr request.date_from || truthyStr request.date_to then
      summary ++ [("date_range", SummaryValue.vrange request.date_from request.date_to)]
    else summary
  if summary.isEmpty then [("scope", SummaryValue.vstr "all_documents")]
  else summary

/-- Written from the words of the spec: an optional list field is supplied
and non-empty. -/
def fieldSupplied (o : Option (List String)) : Bool :=
  match o with
  | some (_ :: _) => true
  | _ => false

/-- Written from the words of the spec: an optional date field is supplied
and non-empty. -/
def dateFieldSupplied (o : Option String) : Bool :=
  match o with
  | none => false
  | some s => !s.isEmpty

/-- Written from the words of the spec (sections 4.1 and 8): the clause set
is the tenant exact-match clause together with exactly one clause per
non-empty optional field, membership clauses for the four list fields, an
inclusive lower bound for date_from and an inclusive upper bound for
date_to. -/
def spec_filter_clauses (tenant_id : String) (r : QueryRequest) :
    List MetadataFilter :=
  [⟨"tenant_id", FilterValue.str tenant_id, FilterOperator.EQ⟩]
  ++ (if fieldSupplied r.document_ids then
        [⟨"document_id", FilterValue.strList (r.document_ids.getD []), FilterOperator.IN⟩]
      else [])
  ++ (if fieldSupplied r.categories then
        [⟨"category", FilterValue.strList (r.categories.getD []), FilterOperator.IN⟩]
      else [])
  ++ (if fieldSupplied r.tags then
        [⟨"tags", FilterValue.strList (r.tags.getD []), FilterOperator.IN⟩]
      else [])
  ++ (if fieldSupplied r.file_types then
        [⟨"file_type", FilterValue.strList (r.file_types.getD []), FilterOperator.IN⟩]
      else [])
  ++ (if dateFieldSupplied r.date_from then
        [⟨"upload_date", FilterValue.str (r.date_from.getD ""), FilterOperator.GTE⟩]
      else [])
  ++ (if dateFieldSupplied r.date_to then
        [⟨"upload_date", FilterValue.str (r.date_to.getD ""), FilterOperator.LTE⟩]
      else [])

lemma truthyList_eq_fieldSupplied (o : Option (List String)) :
    truthyList o = fieldSupplied o := by
  cases o with
  | none => rfl
  | some l => cases l <;> rfl

lemma truthyStr_eq_dateFieldSupplied (o : Option String) :
    truthyStr o = dateFieldSupplied o := by
  cases o <;> rfl

/-- C1: for every tenant id and every filter request, the filter expression
built by build_metadata_filters has the exact-match clause tenant_id == t as
its first clause, unconditionally, and its clauses are AND-combined. -/
theorem tenant_clause_always_first (t : String) (r : QueryRequest) :
    (build_metadata_filters t r).filters.head?
      = some (ExactMatchFilter "tenant_id" (FilterValue.str t))
    ∧ (build_metadata_filters t r).condition = FilterCondition.and := by
  constructor
  · simp only [build_metadata_filters]
    split_ifs <;> rfl
  · simp only [build_metadata_filters]

/-- C2: for every tenant id and filter request, the clause list built by
build_metadata_filters equals the tenant clause followed by exactly one
clause per supplied non-empty optional field (membership for the four list
fields, inclusive lower/upper bound on upload_date for date_from/date_to);
when no optional field is supplied the filter reduces to the tenant clause
alone. -/
theorem filter_clause_set (t : String) (r : QueryRequest) :
    (build_metadata_filters t r).filters = spec_filter_clauses t r
    ∧ (fieldSupplied r.document_ids = false → fieldSupplied r.categories = false →
       fieldSupplied r.tags = false → fieldSupplied r.file_types = false →
       dateFieldSupplied r.date_from = false → dateFieldSupplied r.date_to = false →
       (build_metadata_filters t r).filters
         = [ExactMatchFilter "tenant_id" (FilterValue.str t)]) := by
  constructor
  · simp only [build_metadata_filters, spec_filter_clauses,
      truthyList_eq_fieldSupplied, truthyStr_eq_dateFieldSupplied]
    split_ifs <;> simp [ExactMatchFilter]
  · intro h1 h2 h3 h4 h5 h6
    simp only [build_metadata_filters, truthyList_eq_fieldSupplied,
      truthyStr_eq_dateFieldSupplied, h1, h2, h3, h4, h5, h6]
    rfl

/-- Witness for C2 at a concrete input: with no optional field supplied the
built filter is exactly the tenant clause. -/
theorem filter_clause_set_witness :
    (build_metadata_filters "tenant_a"
        ⟨"what is in notes", none, none, none, none, none, none⟩).filters
      = [ExactMatchFilter "tenant_id" (FilterValue.str "tenant_a")] :=
  (filter_clause_set "tenant_a"
      ⟨"what is in notes", none, none, none, none, none, none⟩).2
    rfl rfl rfl rfl rfl rfl

/-- Written from the words of the spec: the summary map holds a key only for
each optional filter field actually supplied and non-empty (date_from and
date_to reported jointly under date_range), and the single key scope when
none is supplied. -/
def spec_summary_keys (r : QueryRequest) : List String :=
  let keys :=
    (if fieldSupplied r.document_ids then ["document_ids"] else [])
    ++ (if fieldSupplied r.categories then ["categories"] else [])
    ++ (if fieldSupplied r.tags then ["tags"] else [])
    ++ (if fieldSupplied r.file_types then ["file_types"] else [])
    ++ (if dateFieldSupplied r.date_from || dateFieldSupplied r.date_to then
          ["date_range"]
        else [])
  if keys.isEmpty then ["scope"] else keys

/-- C8: for every filter request the applied-filters summary carries exactly
the keys of the optional filter fields actually supplied and non-empty
(empty or absent fields excluded, the two date bounds reported jointly as
date_range), and when no optional field is supplied at all it is exactly the
map scope = all_documents. -/
theorem applied_filters_summary_only_supplied (r : QueryRequest) :
    (get_applied_filters_summary r).map Prod.fst = spec_summary_keys r
    ∧ (fieldSupplied r.document_ids = false → fieldSupplied r.categories = false →
       fieldSupplied r.tags = false → fieldSupplied r.file_types = false →
       dateFieldSupplied r.date_from = false → dateFieldSupplied r.date_to = false →
       get_applied_filters_summary r = [("scope", SummaryValue.vstr "all_documents")]) := by
  constructor
  · simp only [get_applied_filters_summary, spec_summary_keys,
      truthyList_eq_fieldSupplied, truthyStr_eq_dateFieldSupplied]
    split_ifs <;> simp_all
  · intro h1 h2 h3 h4 h5 h6
    simp only [get_applied_filters_summary, truthyList_eq_fieldSupplied,
      truthyStr_eq_dateFieldSupplied, h1, h2, h3, h4, h5, h6]
    rfl

/-- Witness for C8 at a concrete input: C8 applied to a request with no
optional field gives the all_documents scope map. -/
theorem applied_filters_summary_only_supplied_witness :
    get_applied_filters_summary ⟨"hello", none, none, none, none, none, none⟩
      = [("scope", SummaryValue.vstr "all_documents")] :=
  (applied_filters_summary_only_supplied
      ⟨"hello", none, none, none, none, none, none⟩).2 rfl rfl rfl rfl rfl rfl

/-- The raw body of a query request before pydantic validation: each schema
field either absent or present with a value of the declared type. -/
structure RawQueryRequest where
  query : Option String
  document_ids : Option (List String)
  categories : Option (List String)
  tags : Option (List String)
  file_types : Option (List String)
  date_from : Option String
  date_to : Option String
deriving DecidableEq, Repr

/-- Pydantic validation of QueryRequest (app/schemas/query_schema.py): the
query field is required (Field(...)), every other field is optional with
default None; no field carries any further constraint, in particular no
minimum length on query. -/
def validate_query_request (raw : RawQueryRequest) :
    Except String QueryRequest :=
  match raw.query with
  | none => Except.error "field required: query"
  | some q =>
      Except.ok ⟨q, raw.document_ids, raw.categories, raw.tags,
        raw.file_types, raw.date_from, raw.date_to⟩

/-- Whether an Except value is a success. -/
def exceptOk {ε α : Type} (r : Except ε α) : Bool :=
  match r with
  | Except.ok _ => true
  | Except.error _ => false

/-- A byte of an uploaded file. -/
def Byte := Fin 256

/-- Whether a byte is a UTF-8 continuation byte (0x80 to 0xBF). -/
def isCont (b : Byte) : Bool :=
  0x80 ≤ b.val && b.val < 0xC0

/-- Strict UTF-8 decoding of a byte sequence into code points, as performed
by the Python bytes.decode utf-8 codec: rejects stray continuation bytes,
overlong encodings, surrogate code points and code points above 0x10FFFF. -/
def utf8Decode : List Byte → Option (List Nat)
  | [] => some []
  | b :: rest =>
    let b0 := b.val
    if b0 < 0x80 then
      (utf8Decode rest).map (fun t => b0 :: t)
    else if b0 < 0xC2 then
      none
    else if b0 < 0xE0 then
      match rest with
      | b1 :: rest2 =>
        if isCont b1 then
          (utf8Decode rest2).map (fun t => ((b0 - 0xC0) * 0x40 + (b1.val - 0x80)) :: t)
        else none
      | [] => none
    else if b0 < 0xF0 then
      match rest with
      | b1 :: b2 :: rest3 =>
        if isCont b1 && isCont b2 then
          let cp := (b0 - 0xE0) * 0x1000 + (b1.val - 0x80) * 0x40 + (b2.val - 0x80)
          if cp < 0x800 || (0xD800 ≤ cp && cp < 0xE000) then none
          else (utf8Decode rest3).map (fun t => cp :: t)
        else none
      | _ => none
    else if b0 < 0xF5 then
      match rest with
      | b1 :: b2 :: b3 :: rest4 =>
        if isCont b1 && isCont b2 && isCont b3 then
          let cp := (b0 - 0xF0) * 0x40000 + (b1.val - 0x80) * 0x1000
            + (b2.val - 0x80) * 0x40 + (b3.val - 0x80)
          if cp < 0x10000 || 0x10FFFF < cp then none
          else (utf8Decode rest4).map (fun t => cp :: t)
        else none
      | _ => none
    else none

/-- Latin-1 decoding, as performed by the Python bytes.decode latin-1 codec:
byte b becomes code point b; defined for every byte, so it never fails. -/
def latin1Decode (content : List Byte) : Option (List Nat) :=
  some (content.map (fun b => b.val))

/-- The two rejection reasons of the txt branch of upload_document
(app/routers/query.py): the decode-failure detail and the
too-short-or-empty detail. -/
inductive TxtUploadError where
  | decodeFailure
  | tooShortOrEmpty
deriving DecidableEq, Repr

/-- The txt branch of upload_document: try UTF-8, on UnicodeDecodeError fall
back to Latin-1, and only if that also raised report the decode failure. -/
def extract_txt_text (content : List Byte) : Except TxtUploadError (List Nat) :=
  match utf8Decode content with
  | some t => Except.ok t
  | none =>
    match latin1Decode content with
    | some t => Except.ok t
    | none => Except.error TxtUploadError.decodeFailure

/-- Whether a code point is whitespace for the Python str.strip default
(str.isspace code points). -/
def isPySpace (cp : Nat) : Bool :=
  (9 ≤ cp && cp ≤ 13) || (28 ≤ cp && cp ≤ 32) || cp == 133 || cp == 160
  || cp == 5760 || (8192 ≤ cp && cp ≤ 8202) || cp == 8232 || cp == 8233
  || cp == 8239 || cp == 8287 || cp == 12288

/-- Python str.strip with no argument: drop leading and trailing
whitespace. -/
def pyStrip (l : List Nat) : List Nat :=
  ((l.dropWhile isPySpace).reverse.dropWhile isPySpace).reverse

/-- The validation applied to an uploaded txt file by upload_document:
decode the bytes, then reject text that is empty or whose stripped length is
below 10 characters. -/
def txt_upload_validate (content : List Byte) : Except TxtUploadError (List Nat) :=
  match extract_txt_text content with
  | Except.error e => Except.error e
  | Except.ok t =>
      if t.isEmpty || (pyStrip t).length < 10 then
        Except.error TxtUploadError.tooShortOrEmpty
      else Except.ok t

/-- Whether a txt upload outcome is the encoding-failure rejection. -/
def rejectionIsEncoding (r : Except TxtUploadError (List Nat)) : Bool :=
  match r with
  | Except.error TxtUploadError.decodeFailure => true
  | _ => false

/-- A tenant row (app/models/document.py): identifier, name and quota
limits. -/
structure Tenant where
  id : String
  name : String
  max_documents : Nat
  max_queries_per_day : Nat
deriving DecidableEq, Repr

/-- A document row (app/models/document.py), timestamps modelled as opaque
strings. -/
structure DocumentRec where
  id : String
  tenant_id : String
  filename : String
  file_size : Nat
  file_type : String
  status : DocumentStatus
  chunk_count : Nat
  error_message : Option String
  processed_at : Option String
  category : Option String
  tags : List String
  description : Option String
  created_at : String
deriving DecidableEq, Repr

/-- The payload attached to every vector-store point, as produced by
Document.to_metadata_dict. -/
structure Payload where
  tenant_id : String
  document_id : String
  file_name : String
  file_type : String
  file_size : Nat
  category : Option String
  tags : List String
  upload_date : String
  description : Option String
deriving DecidableEq, Repr

/-- Document.to_metadata_dict from app/models/document.py: the metadata dict
for vector-store ingestion; upload_date is the creation timestamp. -/
def to_metadata_dict (d : DocumentRec) : Payload :=
  ⟨d.tenant_id, d.id, d.filename, d.file_type, d.file_size, d.category,
    d.tags, d.created_at, d.description⟩

/-- A vector-store point: identifier, payload and chunk text (the embedding
vector itself lives in the external store and plays no role in the claims). -/
structure VectorPoint where
  id : String
  payload : Payload
  text : String
deriving DecidableEq, Repr

/-- A query_logs row (app/models/document.py and the alembic migration). -/
structure QueryLogRow where
  tenant_id : String
  query_text : String
  filters_applied : List (String × SummaryValue)
  answer_length : Nat
  sources_count : Nat
  response_time_ms : Nat
  success : Bool
  error_message : Option String
deriving DecidableEq, Repr

/-- A webhook notification fired through trigger_webhook, recorded as the
subsystem sees it: tenant, event name and the document the payload names. -/
structure WebhookEvent where
  tenant_id : String
  event : String
  document_id : String
deriving DecidableEq, Repr

/-- The observable state the routers read and write: the relational tables,
the vector-store points, and the stream of webhook notifications. -/
structure AppState where
  tenants : List Tenant
  documents : List DocumentRec
  points : List VectorPoint
  query_logs : List QueryLogRow
  notifications : List WebhookEvent
deriving DecidableEq, Repr

/-- select(Tenant).where(Tenant.id == tenant_id), scalar_one_or_none. -/
def lookupTenant (st : AppState) (tenant_id : String) : Option Tenant :=
  st.tenants.find? (fun t => t.id == tenant_id)

/-- len of select(Document).where(Document.tenant_id == tenant_id). -/
def tenantDocCount (st : AppState) (tenant_id : String) : Nat :=
  (st.documents.filter (fun d => d.tenant_id == tenant_id)).length

/-- select(Document).where(Document.id == document_id,
Document.tenant_id == tenant_id), scalar_one_or_none: the tenant-scoped
document lookup shared by the document routes. -/
def lookupDocument (st : AppState) (document_id tenant_id : String) :
    Option DocumentRec :=
  st.documents.find? (fun d => d.id == document_id && d.tenant_id == tenant_id)

/-- Replace the document row with the given id (the ORM flush of mutated
attributes). -/
def setDocument (docs : List DocumentRec) (document_id : String)
    (d : DocumentRec) : List DocumentRec :=
  docs.map (fun x => if x.id == document_id then d else x)

/-- The error responses the routers raise as HTTPException, by status
class. -/
inductive ApiError where
  | notFound
  | quotaExceeded (limit : Nat)
  | badRequest (detail : String)
  | internalError (detail : String)
deriving DecidableEq, Repr

/-- Outcome of the EXTRACTING stage of upload_document (reading the file and
dispatching on its extension): extracted text, an HTTPException raised and
re-raised unchanged, or another exception reaching the generic handler. The
txt branch is modelled concretely by txt_upload_validate; pdf and docx
parsing are external libraries. -/
inductive ExtractionOutcome where
  | ok (file_text : List Nat)
  | reject (e : ApiError)
  | exn (msg : String)
deriving DecidableEq, Repr

/-- Tag parsing in upload_document: split the comma-separated form field and
strip each tag; a missing or empty field gives no tags. -/
def parse_tags (tags : Option String) : List String :=
  match tags with
  | none => []
  | some s => if s.isEmpty then [] else (s.splitOn ",").map (fun t => t.trim)

/-- The id of the vector-store point holding chunk i of a document. -/
def chunk_point_id (document_id : String) (i : Nat) : String :=
  document_id ++ ":" ++ toString i

/-- The response body of a successful upload. -/
structure DocumentUploadResponse where
  status : String
  document_id : String
  filename : String
  file_size : Nat
  chunks_created : Nat
  metadata : Payload
deriving DecidableEq, Repr

/-- upload_document from app/routers/query.py. Stage order as in the source:
tenant lookup, quota check, file read and extraction, tag parsing, Document
record creation in PROCESSING status, chunking and vector upsert (their
outcome is the indexing parameter: the produced chunk texts, or the message
of the exception raised), then status COMPLETED plus the document.uploaded
notification; on an exception after the record exists, status FAILED with
error_message = str(e) and the document.failed notification, then a 500.
Relational commits themselves are assumed to succeed. -/
def upload_document (st : AppState) (tenant_id : String)
    (filename file_extension : String) (content_size : Nat)
    (category tags_form description : Option String)
    (new_doc_id upload_date now : String)
    (extraction : ExtractionOutcome) (indexing : Except String (List String)) :
    Except ApiError DocumentUploadResponse × AppState :=
  match lookupTenant st tenant_id with
  | none => (Except.error ApiError.notFound, st)
  | some tenant =>
    if tenantDocCount st tenant_id ≥ tenant.max_documents then
      (Except.error (ApiError.quotaExceeded tenant.max_documents), st)
    else
      match extraction with
      | ExtractionOutcome.reject e => (Except.error e, st)
      | ExtractionOutcome.exn m =>
          (Except.error (ApiError.internalError m), st)
      | ExtractionOutcome.ok _ =>
        let tag_list := parse_tags tags_form
        let db_document : DocumentRec :=
          { id := new_doc_id, tenant_id := tenant_id, filename := filename,
            file_size := content_size, file_type := file_extension,
            status := DocumentStatus.processing, chunk_count := 0,
            error_message := none, processed_at := none, category := category,
            tags := tag_list, description := description,
            created_at := upload_date }
        let st1 := { st with documents := st.documents ++ [db_document] }
        let metadata := to_metadata_dict db_document
        match indexing with
        | Except.ok chunks =>
          let new_points := chunks.mapIdx
            (fun i text => (⟨chunk_point_id new_doc_id i, metadata, text⟩ : VectorPoint))
          let doc2 := { db_document with
            status := DocumentStatus.completed,
            chunk_count := chunks.length,
            processed_at := some now }
          let st2 := { st1 with
            documents := setDocument st1.documents new_doc_id doc2,
            points := st1.points ++ new_points,
            notifications := st1.notifications
              ++ [⟨tenant_id, "document.uploaded", new_doc_id⟩] }
          (Except.ok ⟨"success", new_doc_id, filename, content_size,
            chunks.length, metadata⟩, st2)
        | Except.error e =>
          let doc2 := { db_document with
            status := DocumentStatus.failed,
            error_message := some e }
          let st2 := { st1 with
            documents := setDocument st1.documents new_doc_id doc2,
            notifications := st1.notifications
              ++ [⟨tenant_id, "document.failed", new_doc_id⟩] }
          (Except.error (ApiError.internalError e), st2)

/-- delete_document from app/routers/query.py: tenant-scoped lookup, then
delete every vector-store point whose payload carries the document id, then
delete the relational record and commit; if the external delete raised, the
transaction is rolled back and a 500 returned with nothing changed. -/
def delete_document (st : AppState) (document_id tenant_id : String)
    (qdrant_delete : Except String Unit) :
    Except ApiError String × AppState :=
  match lookupDocument st document_id tenant_id with
  | none => (Except.error ApiError.notFound, st)
  | some document =>
    match qdrant_delete with
    | Except.error e => (Except.error (ApiError.internalError e), st)
    | Except.ok _ =>
      let st1 := { st with
        points := st.points.filter
          (fun p => !(p.payload.document_id == document_id)),
        documents := st.documents.filter (fun d => !(d.id == document.id)) }
      (Except.ok "success", st1)

/-- The PATCH body for document metadata (app/schemas/document_schema.py
DocumentUpdateRequest): each field optional. -/
structure DocumentUpdateRequest where
  category : Option String
  tags : Option (List String)
  description : Option String
deriving DecidableEq, Repr

/-- The field-by-field mutation update_document_metadata applies: each field
overwritten only when provided. -/
def apply_update (d : DocumentRec) (u : DocumentUpdateRequest) : DocumentRec :=
  let d := match u.category with
    | some c => { d with category := some c }
    | none => d
  let d := match u.tags with
    | some t => { d with tags := t }
    | none => d
  match u.description with
  | some s => { d with description := some s }
  | none => d

/-- update_document_metadata from app/routers/query.py: tenant-scoped
lookup, apply and commit the relational update, then try to push the fresh
metadata onto every vector-store point carrying the document id; a failure
of that external call is caught and swallowed, and the updated document is
returned either way. -/
def update_document_metadata (st : AppState) (document_id tenant_id : String)
    (update_data : DocumentUpdateRequest) (set_payload : Except String Unit) :
    Except ApiError DocumentRec × AppState :=
  match lookupDocument st document_id tenant_id with
  | none => (Except.error ApiError.notFound, st)
  | some document =>
    let doc2 := apply_update document update_data
    let st1 := { st with documents := setDocument st.documents document_id doc2 }
    let updated_metadata := to_metadata_dict doc2
    let new_points := st1.points.map (fun p =>
      if p.payload.document_id == document_id then
        { p with payload := updated_metadata }
      else p)
    let st2 := match set_payload with
      | Except.ok _ => { st1 with points := new_points }
      | Except.error _ => st1
    (Except.ok doc2, st2)

/-- Evaluation of one metadata filter clause against a point payload, the
semantics the vector store gives the clauses the source builds. -/
def payloadMatches (p : Payload) (c : MetadataFilter) : Bool :=
  match c.key, c.operator, c.value with
  | "tenant_id", FilterOperator.EQ, FilterValue.str v => p.tenant_id == v
  | "document_id", FilterOperator.IN, FilterValue.strList l =>
      l.contains p.document_id
  | "category", FilterOperator.IN, FilterValue.strList l =>
      match p.category with
      | some cat => l.contains cat
      | none => false
  | "tags", FilterOperator.IN, FilterValue.strList l =>
      p.tags.any (fun t => l.contains t)
  | "file_type", FilterOperator.IN, FilterValue.strList l =>
      l.contains p.file_type
  | "upload_date", FilterOperator.GTE, FilterValue.str d =>
      decide (d ≤ p.upload_date)
  | "upload_date", FilterOperator.LTE, FilterValue.str d =>
      decide (p.upload_date ≤ d)
  | _, _, _ => false

/-- Whether a payload passes a whole filter expression. -/
def matchesFilters (f : MetadataFilters) (p : Payload) : Bool :=
  match f.condition with
  | FilterCondition.and => f.filters.all (payloadMatches p)
  | FilterCondition.or => f.filters.any (payloadMatches p)

/-- Filtered similarity search: the store never returns a point failing the
filter, and at most top_k points; the similarity ordering is external, so
results are modelled as a prefix of the filtered points in store order. -/
def qdrant_search (points : List VectorPoint) (f : MetadataFilters)
    (top_k : Nat) : List VectorPoint :=
  (points.filter (fun p => matchesFilters f p.payload)).take top_k

/-- A source node of the retrieval response: chunk metadata, chunk text and
optional relevance score (scores are opaque here). -/
structure SourceNode where
  metadata : Payload
  text : String
  score : Option Nat
deriving DecidableEq, Repr

/-- One entry of the sources list in the query response, built by the
extraction loop of ask_question. -/
structure SourceInfo where
  document_id : String
  file_name : String
  category : String
  tags : List String
  content_preview : String
  score : Option Nat
deriving DecidableEq, Repr

/-- The per-node extraction in ask_question: metadata fields with their
defaults (category defaults to uncategorized, tags to the empty list; the
id and name keys are always present on chunks the system wrote) and the
text preview truncated to 200 characters plus an ellipsis. -/
def node_to_source (node : SourceNode) : SourceInfo :=
  ⟨node.metadata.document_id, node.metadata.file_name,
    node.metadata.category.getD "uncategorized", node.metadata.tags,
    node.text.take 200 ++ "...", node.score⟩

/-- What query_engine.aquery returns on success: the answer text of
str(response) and the reranked source nodes. -/
structure BackendResponse where
  answer_text : String
  source_nodes : List SourceNode
deriving DecidableEq, Repr

/-- The response body of a successful query
(app/schemas/query_schema.py QueryResponse). -/
structure QueryResponse where
  answer : String
  sources : List SourceInfo
  filters_applied : List (String × SummaryValue)
deriving DecidableEq, Repr

/-- How a call to ask_question ends: a response, an HTTPException, or an
unhandled Python exception escaping the handler. -/
inductive AskOutcome where
  | success (resp : QueryResponse)
  | httpError (e : ApiError)
  | pythonError (exception_name : String)
deriving DecidableEq, Repr

/-- ask_question from app/routers/query.py. The retrieval parameter is the
outcome of the query_engine.aquery call, which performs the vector search,
the rerank and the language-model call; its error is the message of the
exception it raised. On success the handler builds the sources list, binds
answer, writes one success QueryLog row and returns the response. When
aquery raised, the except handler builds its QueryLog from the local
variables answer and sources, which were never assigned on that path, so
evaluating len(answer) raises UnboundLocalError: the handler never reaches
db.add, no log row is written, and the unhandled exception escapes.
Relational commits themselves are assumed to succeed. -/
def ask_question (st : AppState) (tenant_id : String) (request : QueryRequest)
    (gemini_api_key : Option String)
    (retrieval : Except String BackendResponse)
    (response_time_ms : Nat) : AskOutcome × AppState :=
  match gemini_api_key with
  | none =>
      (AskOutcome.httpError (ApiError.internalError "GEMINI_API_KEY not configured"), st)
  | some _ =>
    match retrieval with
    | Except.ok response =>
      let sources := response.source_nodes.map node_to_source
      let answer := response.answer_text
      let query_log : QueryLogRow :=
        { tenant_id := tenant_id, query_text := request.query,
          filters_applied := get_applied_filters_summary request,
          answer_length := answer.length, sources_count := sources.length,
          response_time_ms := response_time_ms, success := true,
          error_message := none }
      (AskOutcome.success ⟨answer, sources, get_applied_filters_summary request⟩,
        { st with query_logs := st.query_logs ++ [query_log] })
    | Except.error _ =>
      (AskOutcome.pythonError "UnboundLocalError", st)

/-- C9: decoding an uploaded txt file never fails — Latin-1 decoding
succeeds on every byte sequence, so text extraction always succeeds and the
decode-failure branch is unreachable; a txt upload can be rejected only for
its decoded text being empty or shorter than 10 stripped characters, never
for its encoding. -/
theorem txt_decode_never_fails (content : List Byte) :
    (latin1Decode content).isSome = true
    ∧ exceptOk (extract_txt_text content) = true
    ∧ rejectionIsEncoding (txt_upload_validate content) = false := by
  refine ⟨rfl, ?_, ?_⟩
  · cases h : utf8Decode content with
    | some t => simp [extract_txt_text, h, exceptOk]
    | none => simp [extract_txt_text, h, latin1Decode, exceptOk]
  · cases h : utf8Decode content with
    | some t =>
        simp only [txt_upload_validate, extract_txt_text, h]
        split_ifs <;> rfl
    | none =>
        simp only [txt_upload_validate, extract_txt_text, h, latin1Decode]
        split_ifs <;> rfl

lemma mem_setDocument_appended (docs : List DocumentRec) (d new : DocumentRec)
    (key : String) (h : d.id = key) : new ∈ setDocument (docs ++ [d]) key new := by
  subst h
  simp [setDocument]

/-- C5: an upload by a tenant whose current document count has reached the
tenant quota is rejected with the quota error and the whole state — tenant,
document, vector-store and log tables — is returned unchanged, whatever the
file and the downstream outcomes would have been; in particular the
(max_documents + 1)-th upload creates no Document record and no points. -/
theorem quota_exceeded_upload_rejected
    (st : AppState) (tenant_id filename file_extension : String)
    (content_size : Nat) (category tags_form description : Option String)
    (new_doc_id upload_date now : String)
    (extraction : ExtractionOutcome) (indexing : Except String (List String))
    (tenant : Tenant)
    (h1 : lookupTenant st tenant_id = some tenant)
    (h2 : tenant.max_documents ≤ tenantDocCount st tenant_id) :
    upload_document st tenant_id filename file_extension content_size
        category tags_form description new_doc_id upload_date now
        extraction indexing
      = (Except.error (ApiError.quotaExceeded tenant.max_documents), st) := by
  simp only [upload_document, h1]
  rw [if_pos (show tenantDocCount st tenant_id ≥ tenant.max_documents from h2)]

/-- Witness for C5: a tenant with max_documents = 1 already holding one
document has its second upload rejected with the quota error and an
unchanged state. -/
theorem quota_exceeded_upload_rejected_witness :
    upload_document
      ⟨[⟨"t1", "Tenant One", 1, 100⟩],
       [⟨"doc_1", "t1", "notes.txt", 20, "txt", DocumentStatus.completed, 1,
         none, some "d1", none, [], none, "d0"⟩], [], [], []⟩
      "t1" "more.txt" "txt" 20 none none none "doc_2" "d2" "d2"
      (ExtractionOutcome.ok [104, 105])
      (Except.ok ["hi there friend"])
    = (Except.error (ApiError.quotaExceeded 1),
       ⟨[⟨"t1", "Tenant One", 1, 100⟩],
        [⟨"doc_1", "t1", "notes.txt", 20, "txt", DocumentStatus.completed, 1,
          none, some "d1", none, [], none, "d0"⟩], [], [], []⟩) :=
  quota_exceeded_upload_rejected _ _ _ _ _ _ _ _ _ _ _ _ _
    ⟨"t1", "Tenant One", 1, 100⟩ rfl (by decide)

/-- C6 (amended): an ingestion that fails after the Document record was
created persists that record with status FAILED and error_message equal to
the description of the failure, and fires the document.failed notification,
while the error surfaces to the caller as a 500 — the record never
vanishes; the stored message is non-empty exactly when the description
is. -/
theorem failed_ingestion_marked
    (st : AppState) (tenant_id filename file_extension : String)
    (content_size : Nat) (category tags_form description : Option String)
    (new_doc_id upload_date now : String) (file_text : List Nat) (e : String)
    (tenant : Tenant)
    (h1 : lookupTenant st tenant_id = some tenant)
    (h2 : tenantDocCount st tenant_id < tenant.max_documents) :
    (upload_document st tenant_id filename file_extension content_size
        category tags_form description new_doc_id upload_date now
        (ExtractionOutcome.ok file_text) (Except.error e)).1
      = Except.error (ApiError.internalError e)
    ∧ ({ id := new_doc_id, tenant_id := tenant_id, filename := filename,
         file_size := content_size, file_type := file_extension,
         status := DocumentStatus.failed, chunk_count := 0,
         error_message := some e, processed_at := none, category := category,
         tags := parse_tags tags_form, description := description,
         created_at := upload_date } : DocumentRec)
        ∈ (upload_document st tenant_id filename file_extension content_size
            category tags_form description new_doc_id upload_date now
            (ExtractionOutcome.ok file_text) (Except.error e)).2.documents
    ∧ (⟨tenant_id, "document.failed", new_doc_id⟩ : WebhookEvent)
        ∈ (upload_document st tenant_id filename file_extension content_size
            category tags_form description new_doc_id upload_date now
            (ExtractionOutcome.ok file_text) (Except.error e)).2.notifications := by
  have hq : ¬ (tenantDocCount st tenant_id ≥ tenant.max_documents) := by omega
  refine ⟨?_, ?_, ?_⟩
  · simp only [upload_document, h1]
    rw [if_neg hq]
  · simp only [upload_document, h1]
    rw [if_neg hq]
    exact mem_setDocument_appended st.documents _ _ new_doc_id rfl
  · simp only [upload_document, h1]
    rw [if_neg hq]
    simp

/-- Witness for C6: a concrete failed indexing leaves a FAILED record with
the error text and a document.failed notification. -/
theorem failed_ingestion_marked_witness :
    ({ id := "doc_1", tenant_id := "t1", filename := "notes.txt",
       file_size := 20, file_type := "txt", status := DocumentStatus.failed,
       chunk_count := 0, error_message := some "qdrant upsert failed",
       processed_at := none, category := none, tags := [],
       description := none, created_at := "d1" } : DocumentRec)
      ∈ (upload_document ⟨[⟨"t1", "Tenant One", 100, 100⟩], [], [], [], []⟩
          "t1" "notes.txt" "txt" 20 none none none "doc_1" "d1" "d1"
          (ExtractionOutcome.ok [104, 105])
          (Except.error "qdrant upsert failed")).2.documents :=
  (failed_ingestion_marked ⟨[⟨"t1", "Tenant One", 100, 100⟩], [], [], [], []⟩
    "t1" "notes.txt" "txt" 20 none none none "doc_1" "d1" "d1" [104, 105]
    "qdrant upsert failed" ⟨"t1", "Tenant One", 100, 100⟩ rfl (by decide)).2.1

/-- Counterexample for C6 as frozen: the source stores error_message =
str(e) verbatim, so an ingestion failure whose exception has an empty
description persists a FAILED record whose error_message is the empty
string — the claimed non-emptiness does not hold. -/
theorem failed_ingestion_empty_error_message :
    (upload_document ⟨[⟨"t1", "Tenant One", 100, 100⟩], [], [], [], []⟩
        "t1" "notes.txt" "txt" 20 none none none "doc_1" "d1" "d1"
        (ExtractionOutcome.ok [104, 105]) (Except.error "")).2.documents
      = [{ id := "doc_1", tenant_id := "t1", filename := "notes.txt",
           file_size := 20, file_type := "txt",
           status := DocumentStatus.failed, chunk_count := 0,
           error_message := some "", processed_at := none, category := none,
           tags := [], description := none, created_at := "d1" }]
    ∧ String.isEmpty "" = true :=
  ⟨rfl, rfl⟩

/-- C7: a successful delete of a document owned by the calling tenant
removes the relational record and every vector-store point whose payload
carries that document id, so a subsequent search under any filter and any
top-k returns none of its chunks; a lookup miss (nonexistent id, or an id
owned by another tenant) is reported as not found with the state
unchanged. -/
theorem delete_document_round_trip (st : AppState) (document_id tenant_id : String) :
    (∀ document, lookupDocument st document_id tenant_id = some document →
      exceptOk (delete_document st document_id tenant_id (Except.ok ())).1 = true
      ∧ (∀ d ∈ (delete_document st document_id tenant_id (Except.ok ())).2.documents,
          d.id ≠ document_id)
      ∧ (∀ p ∈ (delete_document st document_id tenant_id (Except.ok ())).2.points,
          p.payload.document_id ≠ document_id)
      ∧ (∀ f k p, p ∈ qdrant_search
            (delete_document st document_id tenant_id (Except.ok ())).2.points f k →
          p.payload.document_id ≠ document_id))
    ∧ (lookupDocument st document_id tenant_id = none →
        delete_document st document_id tenant_id (Except.ok ())
          = (Except.error ApiError.notFound, st)) := by
  constructor
  · intro document h
    have hp := List.find?_some h
    rw [Bool.and_eq_true, beq_iff_eq, beq_iff_eq] at hp
    have hpoints : ∀ p ∈ (delete_document st document_id tenant_id (Except.ok ())).2.points,
        p.payload.document_id ≠ document_id := by
      simp only [delete_document, h]
      intro p hmem
      rw [List.mem_filter, Bool.not_eq_true', beq_eq_false_iff_ne] at hmem
      exact hmem.2
    refine ⟨?_, ?_, hpoints, ?_⟩
    · simp only [delete_document, h]
      rfl
    · simp only [delete_document, h]
      intro d hmem
      rw [List.mem_filter, Bool.not_eq_true', beq_eq_false_iff_ne] at hmem
      rw [hp.1] at hmem
      exact hmem.2
    · intro f k p hmem
      exact hpoints p (List.mem_filter.1 (List.take_subset _ _ hmem)).1
  · intro h
    simp only [delete_document, h]

/-- Witness for C7: deleting the one document of a concrete state removes
its record, and a lookup under the wrong id is a 404 leaving the state
unchanged. -/
theorem delete_document_round_trip_witness :
    (∀ d ∈ (delete_document
        ⟨[⟨"t1", "Tenant One", 100, 100⟩],
         [⟨"doc_1", "t1", "notes.txt", 20, "txt", DocumentStatus.completed, 1,
           none, some "d1", none, [], none, "d0"⟩],
         [⟨"doc_1:0", ⟨"t1", "doc_1", "notes.txt", "txt", 20, none, [], "d0", none⟩,
           "some chunk text"⟩], [], []⟩
        "doc_1" "t1" (Except.ok ())).2.documents, d.id ≠ "doc_1")
    ∧ delete_document
        ⟨[⟨"t1", "Tenant One", 100, 100⟩],
         [⟨"doc_1", "t1", "notes.txt", 20, "txt", DocumentStatus.completed, 1,
           none, some "d1", none, [], none, "d0"⟩],
         [⟨"doc_1:0", ⟨"t1", "doc_1", "notes.txt", "txt", 20, none, [], "d0", none⟩,
           "some chunk text"⟩], [], []⟩
        "doc_9" "t1" (Except.ok ())
      = (Except.error ApiError.notFound,
         ⟨[⟨"t1", "Tenant One", 100, 100⟩],
          [⟨"doc_1", "t1", "notes.txt", 20, "txt", DocumentStatus.completed, 1,
            none, some "d1", none, [], none, "d0"⟩],
          [⟨"doc_1:0", ⟨"t1", "doc_1", "notes.txt", "txt", 20, none, [], "d0", none⟩,
            "some chunk text"⟩], [], []⟩) :=
  ⟨((delete_document_round_trip
      ⟨[⟨"t1", "Tenant One", 100, 100⟩],
       [⟨"doc_1", "t1", "notes.txt", 20, "txt", DocumentStatus.completed, 1,
         none, some "d1", none, [], none, "d0"⟩],
       [⟨"doc_1:0", ⟨"t1", "doc_1", "notes.txt", "txt", 20, none, [], "d0", none⟩,
         "some chunk text"⟩], [], []⟩ "doc_1" "t1").1
      ⟨"doc_1", "t1", "notes.txt", 20, "txt", DocumentStatus.completed, 1,
        none, some "d1", none, [], none, "d0"⟩ rfl).2.1,
   (delete_document_round_trip
      ⟨[⟨"t1", "Tenant One", 100, 100⟩],
       [⟨"doc_1", "t1", "notes.txt", 20, "txt", DocumentStatus.completed, 1,
         none, some "d1", none, [], none, "d0"⟩],
       [⟨"doc_1:0", ⟨"t1", "doc_1", "notes.txt", "txt", 20, none, [], "d0", none⟩,
         "some chunk text"⟩], [], []⟩ "doc_9" "t1").2 rfl⟩

/-- C10: metadata update is best-effort toward the vector store — for a
document owned by the caller, the relational update is committed and the
updated document returned whether or not the external payload update
succeeds; when it fails the failure is swallowed, the result and the
relational rows are identical to the success case, and the vector-store
payloads are left untouched, so they may diverge from the relational
metadata. -/
theorem metadata_update_best_effort
    (st : AppState) (document_id tenant_id e : String)
    (update_data : DocumentUpdateRequest) (document : DocumentRec)
    (h : lookupDocument st document_id tenant_id = some document) :
    (update_document_metadata st document_id tenant_id update_data
        (Except.error e)).1
      = Except.ok (apply_update document update_data)
    ∧ (update_document_metadata st document_id tenant_id update_data
        (Except.error e)).1
      = (update_document_metadata st document_id tenant_id update_data
          (Except.ok ())).1
    ∧ (update_document_metadata st document_id tenant_id update_data
        (Except.error e)).2.documents
      = setDocument st.documents document_id (apply_update document update_data)
    ∧ (update_document_metadata st document_id tenant_id update_data
        (Except.error e)).2.documents
      = (update_document_metadata st document_id tenant_id update_data
          (Except.ok ())).2.documents
    ∧ (update_document_metadata st document_id tenant_id update_data
        (Except.error e)).2.points = st.points := by
  simp [update_document_metadata, h]

/-- Witness for C10: a concrete category update with a failing payload push
still returns the updated document and leaves the point payloads as they
were. -/
theorem metadata_update_best_effort_witness :
    (update_document_metadata
        ⟨[⟨"t1", "Tenant One", 100, 100⟩],
         [⟨"doc_1", "t1", "notes.txt", 20, "txt", DocumentStatus.completed, 1,
           none, some "d1", none, [], none, "d0"⟩],
         [⟨"doc_1:0", ⟨"t1", "doc_1", "notes.txt", "txt", 20, none, [], "d0", none⟩,
           "some chunk text"⟩], [], []⟩
        "doc_1" "t1" ⟨some "finance", none, none⟩
        (Except.error "qdrant unavailable")).1
      = Except.ok ⟨"doc_1", "t1", "notes.txt", 20, "txt",
          DocumentStatus.completed, 1, none, some "d1", some "finance", [],
          none, "d0"⟩
    ∧ (update_document_metadata
        ⟨[⟨"t1", "Tenant One", 100, 100⟩],
         [⟨"doc_1", "t1", "notes.txt", 20, "txt", DocumentStatus.completed, 1,
           none, some "d1", none, [], none, "d0"⟩],
         [⟨"doc_1:0", ⟨"t1", "doc_1", "notes.txt", "txt", 20, none, [], "d0", none⟩,
           "some chunk text"⟩], [], []⟩
        "doc_1" "t1" ⟨some "finance", none, none⟩
        (Except.error "qdrant unavailable")).2.points
      = [⟨"doc_1:0", ⟨"t1", "doc_1", "notes.txt", "txt", 20, none, [], "d0", none⟩,
          "some chunk text"⟩] :=
  ⟨(metadata_update_best_effort
      ⟨[⟨"t1", "Tenant One", 100, 100⟩],
       [⟨"doc_1", "t1", "notes.txt", 20, "txt", DocumentStatus.completed, 1,
         none, some "d1", none, [], none, "d0"⟩],
       [⟨"doc_1:0", ⟨"t1", "doc_1", "notes.txt", "txt", 20, none, [], "d0", none⟩,
         "some chunk text"⟩], [], []⟩
      "doc_1" "t1" "qdrant unavailable" ⟨some "finance", none, none⟩
      ⟨"doc_1", "t1", "notes.txt", 20, "txt", DocumentStatus.completed, 1,
        none, some "d1", none, [], none, "d0"⟩ rfl).1,
   (metadata_update_best_effort
      ⟨[⟨"t1", "Tenant One", 100, 100⟩],
       [⟨"doc_1", "t1", "notes.txt", 20, "txt", DocumentStatus.completed, 1,
         none, some "d1", none, [], none, "d0"⟩],
       [⟨"doc_1:0", ⟨"t1", "doc_1", "notes.txt", "txt", 20, none, [], "d0", none⟩,
         "some chunk text"⟩], [], []⟩
      "doc_1" "t1" "qdrant unavailable" ⟨some "finance", none, none⟩
      ⟨"doc_1", "t1", "notes.txt", 20, "txt", DocumentStatus.completed, 1,
        none, some "d1", none, [], none, "d0"⟩ rfl).2.2.2.2⟩

/-- C3 is violated by the source: when query_engine.aquery raises (a
dependency failure in vector search, rerank or language model), the except
handler of ask_question reads the local variables answer and sources, which
were never assigned on that path, so it raises UnboundLocalError before
db.add: the attempt ends with an unhandled exception and zero Query Log
rows, as this concrete evaluation shows. -/
theorem retrieval_failure_writes_no_query_log :
    ask_question
      ⟨[⟨"t1", "Tenant One", 100, 100⟩], [], [], [], []⟩
      "t1" ⟨"what is in notes", none, none, none, none, none, none⟩
      (some "api-key") (Except.error "vector store unreachable") 42
    = (AskOutcome.pythonError "UnboundLocalError",
       ⟨[⟨"t1", "Tenant One", 100, 100⟩], [], [], [], []⟩) :=
  rfl

/-- Counterexample for C4 as frozen: the empty query is not rejected —
schema validation accepts it, and with a successful retrieval ask_question
processes it fully, returning an answer and writing a successful Query Log
row, so state is mutated. -/
theorem empty_query_accepted_and_processed :
    validate_query_request ⟨some "", none, none, none, none, none, none⟩
      = Except.ok ⟨"", none, none, none, none, none, none⟩
    ∧ ask_question ⟨[⟨"t1", "Tenant One", 100, 100⟩], [], [], [], []⟩ "t1"
        ⟨"", none, none, none, none, none, none⟩ (some "api-key")
        (Except.ok ⟨"answer", []⟩) 7
      = (AskOutcome.success
          ⟨"answer", [], [("scope", SummaryValue.vstr "all_documents")]⟩,
         ⟨[⟨"t1", "Tenant One", 100, 100⟩], [], [],
          [⟨"t1", "", [("scope", SummaryValue.vstr "all_documents")], 6, 0, 7,
            true, none⟩], []⟩) :=
  ⟨rfl, rfl⟩

/-- C4 (amended): a query request with empty query text passes schema
validation unchanged — QueryRequest puts no minimum length on query — and
ask_question runs the full pipeline for it exactly as for any other query:
with a successful retrieval it returns the answer and appends one
successful Query Log row recording the empty query text. -/
theorem empty_query_processed_like_any_other
    (dids cats tgs fts : Option (List String)) (df dt : Option String)
    (st : AppState) (tenant_id api_key : String)
    (response : BackendResponse) (response_time_ms : Nat) :
    validate_query_request ⟨some "", dids, cats, tgs, fts, df, dt⟩
      = Except.ok ⟨"", dids, cats, tgs, fts, df, dt⟩
    ∧ ask_question st tenant_id ⟨"", dids, cats, tgs, fts, df, dt⟩
        (some api_key) (Except.ok response) response_time_ms
      = (AskOutcome.success
          ⟨response.answer_text, response.source_nodes.map node_to_source,
            get_applied_filters_summary ⟨"", dids, cats, tgs, fts, df, dt⟩⟩,
         { st with query_logs := st.query_logs ++
            [⟨tenant_id, "",
              get_applied_filters_summary ⟨"", dids, cats, tgs, fts, df, dt⟩,
              response.answer_text.length,
              (response.source_nodes.map node_to_source).length,
              response_time_ms, true, none⟩] }) :=
  ⟨rfl, rfl⟩
